import Mathlib

/-!
Verification of the FRA flight-tracker runway prediction engine
(`src/app.js`) against its natural-language specification.

The engine is shallowly embedded over `ℝ`: JavaScript numbers are modelled
as real numbers (NaN propagation for malformed input is out of scope, as the
spec's error-handling section declares), optional telemetry fields are
`Option ℝ`, and the JavaScript comparison/truthiness idioms used by the code
(`x != null && x < c`, `undefined < c` being false, `a || b` falling back on
`0`, `%` as truncated remainder) are modelled by small helper functions.
Trigonometric functions are those of Mathlib, so the geodesic kernel is a
faithful real-valued reading of the floating-point source.
-/

noncomputable section

/-- Landing-runway identifiers (the six entries of the RUNWAYS table). -/
inductive RunwayId
  | r25R | r25C | r25L | r07L | r07C | r07R
deriving DecidableEq

instance : Inhabited RunwayId := ⟨RunwayId.r25R⟩

/-- Static data of one runway: threshold coordinate (lat, lng), opposite-end
coordinate and nominal heading, as in the RUNWAYS table of the source. -/
structure RunwayData where
  threshold : ℝ × ℝ
  opposite : ℝ × ℝ
  heading : ℝ

/-- The RUNWAYS table from the source (colors and labels are presentation
data and are omitted). -/
def RUNWAYS : RunwayId → RunwayData
  | RunwayId.r25R => ⟨(50.0371, 8.4971), (50.0458, 8.5337), 249⟩
  | RunwayId.r25C => ⟨(50.0326, 8.5346), (50.0451, 8.5870), 249⟩
  | RunwayId.r25L => ⟨(50.0275, 8.5342), (50.0401, 8.5865), 249⟩
  | RunwayId.r07L => ⟨(50.0458, 8.5337), (50.0371, 8.4971), 69⟩
  | RunwayId.r07C => ⟨(50.0451, 8.5870), (50.0326, 8.5346), 69⟩
  | RunwayId.r07R => ⟨(50.0401, 8.5865), (50.0275, 8.5342), 69⟩

/-- The two runway configurations. -/
inductive Config
  | westerly | easterly
deriving DecidableEq

/-- The CONFIGS table: landing runways of each configuration, in source
order. -/
def CONFIGS : Config → List RunwayId
  | Config.westerly => [RunwayId.r25R, RunwayId.r25C, RunwayId.r25L]
  | Config.easterly => [RunwayId.r07L, RunwayId.r07C, RunwayId.r07R]

/-- The FRA airport reference point (lat, lng). -/
def FRA : ℝ × ℝ := (50.0267, 8.5584)

/-- One aircraft state record, with the raw telemetry fields and the derived
fields written by the pipeline.  Derived fields start out as
`none`/`false`/`0`, matching the JavaScript semantics of the fields being
`undefined` before `runPredictions` assigns them. -/
structure Flight where
  icao24 : String
  callsign : Option String
  latitude : ℝ
  longitude : ℝ
  baroAltitude : Option ℝ
  velocity : Option ℝ
  heading : Option ℝ
  verticalRate : Option ℝ
  distanceToAirport : Option ℝ
  isDeparting : Bool
  isArriving : Bool
  predictedRunway : Option RunwayId
  confidence : ℝ

instance : Inhabited Flight :=
  ⟨⟨"", none, 0, 0, none, none, none, none, none, false, false, none, 0⟩⟩

/-- JavaScript `Math.trunc`-style truncated quotient used by the `%`
operator: rounding toward zero. -/
def jsTrunc (x : ℝ) : ℤ := if 0 ≤ x then ⌊x⌋ else ⌈x⌉

/-- JavaScript `%` on numbers: `x - n * trunc (x / n)` (sign of the
dividend). -/
def jsRem (x n : ℝ) : ℝ := x - n * (jsTrunc (x / n) : ℝ)

/-- Coercion of an optional number to a number where the source reads the
raw field after a null guard has already established it is present. -/
def jsNum (o : Option ℝ) : ℝ := o.getD 0

/-- JavaScript `o < c` where `o` may be absent: `undefined < c` is false. -/
def jsLt (o : Option ℝ) (c : ℝ) : Bool :=
  match o with
  | some x => decide (x < c)
  | none => false

/-- JavaScript `o > c` where `o` may be absent: `undefined > c` is false. -/
def jsGt (o : Option ℝ) (c : ℝ) : Bool :=
  match o with
  | some x => decide (c < x)
  | none => false

/-- JavaScript `o || b` on an optional number: falls back to `b` when the
lookup produced nothing or the value is falsy (`0`). -/
def jsOrElse (o : Option ℝ) (b : ℝ) : ℝ :=
  match o with
  | none => b
  | some s => if s = 0 then b else s

/-- Degrees to radians, as `toRad` in the source. -/
def toRad (deg : ℝ) : ℝ := deg * Real.pi / 180

/-- Radians to degrees, as `toDeg` in the source. -/
def toDeg (rad : ℝ) : ℝ := rad * 180 / Real.pi

/-- The two-argument arctangent `Math.atan2 y x`, y first as in JavaScript. -/
def atan2 (y x : ℝ) : ℝ :=
  if 0 < x then Real.arctan (y / x)
  else if x < 0 ∧ 0 ≤ y then Real.arctan (y / x) + Real.pi
  else if x < 0 ∧ y < 0 then Real.arctan (y / x) - Real.pi
  else if x = 0 ∧ 0 < y then Real.pi / 2
  else if x = 0 ∧ y < 0 then -(Real.pi / 2)
  else 0

/-- Haversine great-circle distance between two lat/lng points in km
(`haversine` in the source, Earth radius 6371 km). -/
def haversine (lat1 lon1 lat2 lon2 : ℝ) : ℝ :=
  let dLat := toRad (lat2 - lat1)
  let dLon := toRad (lon2 - lon1)
  let a := Real.sin (dLat / 2) ^ 2 +
    Real.cos (toRad lat1) * Real.cos (toRad lat2) * Real.sin (dLon / 2) ^ 2
  6371 * 2 * atan2 (Real.sqrt a) (Real.sqrt (1 - a))

/-- Initial bearing from point 1 to point 2 in degrees (`bearing` in the
source), normalized by `((deg % 360) + 360) % 360`. -/
def bearing (lat1 lon1 lat2 lon2 : ℝ) : ℝ :=
  let dLon := toRad (lon2 - lon1)
  let y := Real.sin dLon * Real.cos (toRad lat2)
  let x := Real.cos (toRad lat1) * Real.sin (toRad lat2) -
    Real.sin (toRad lat1) * Real.cos (toRad lat2) * Real.cos dLon
  jsRem (jsRem (toDeg (atan2 y x)) 360 + 360) 360

/-- Cross-track distance in km from a point to the great circle through two
line points (`crossTrackDistance` in the source). -/
def crossTrackDistance (pointLat pointLon lineLat1 lineLon1 lineLat2 lineLon2 : ℝ) : ℝ :=
  let d13 := haversine lineLat1 lineLon1 pointLat pointLon / 6371
  let brng13 := toRad (bearing lineLat1 lineLon1 pointLat pointLon)
  let brng12 := toRad (bearing lineLat1 lineLon1 lineLat2 lineLon2)
  |Real.arcsin (Real.sin d13 * Real.sin (brng13 - brng12))| * 6371

/-- Signed angle difference normalized to [-180, 180] (`angleDiff` in the
source). -/
def angleDiff (a b : ℝ) : ℝ :=
  let diff := jsRem (a - b + 180) 360 - 180
  if diff < -180 then diff + 360 else diff

/-- Determine whether a flight is likely departing (`isDeparting` in the
source): four rules tried in order, each failing when a required optional
field is absent. -/
def isDeparting (flight : Flight) : Bool :=
  if flight.distanceToAirport = none ∨ flight.baroAltitude = none then false
  else if jsLt flight.distanceToAirport 30 && jsGt flight.verticalRate 2 then true
  else if jsLt flight.distanceToAirport 15 && jsLt flight.baroAltitude 1500 &&
      jsGt flight.verticalRate 0.5 then true
  else if jsLt flight.distanceToAirport 25 && jsLt flight.baroAltitude 2000 &&
      flight.heading.isSome &&
      ((decide (|angleDiff (jsNum flight.heading) 180| < 25) ||
        decide (|angleDiff (jsNum flight.heading) 360| < 25)) &&
       jsGt flight.verticalRate 0) then true
  else if jsLt flight.distanceToAirport 40 && jsLt flight.baroAltitude 3000 &&
      flight.heading.isSome && jsGt flight.verticalRate 1 &&
      decide (|angleDiff (jsNum flight.heading)
        (bearing FRA.1 FRA.2 flight.latitude flight.longitude)| < 40) then true
  else false

/-- Determine whether a flight looks like it is arriving at FRA
(`isArriving` in the source). -/
def isArriving (flight : Flight) : Bool :=
  if flight.baroAltitude = none ∨ flight.heading = none then false
  else if jsGt flight.distanceToAirport 80 then false
  else if jsGt flight.baroAltitude 4000 then false
  else if isDeparting flight then false
  else if jsGt flight.verticalRate 3 then false
  else if decide (50 < |angleDiff (jsNum flight.heading) 249|) &&
      decide (50 < |angleDiff (jsNum flight.heading) 69|) then false
  else if jsGt flight.distanceToAirport 5 &&
      decide (70 < |angleDiff (jsNum flight.heading)
        (bearing flight.latitude flight.longitude FRA.1 FRA.2)|) then false
  else true

/-- Candidate filter of `detectConfiguration`: low, descending, close
aircraft with known heading. -/
def candFilter (f : Flight) : Bool :=
  f.baroAltitude.isSome && jsLt f.baroAltitude 4000 && f.heading.isSome &&
    f.verticalRate.isSome && jsLt f.verticalRate (-1) &&
    jsLt f.distanceToAirport 80

/-- The candidate sublist considered by `detectConfiguration`. -/
def candidates (flights : List Flight) : List Flight :=
  flights.filter candFilter

/-- Number of candidate aircraft whose heading is within 40 degrees of the
westerly landing heading 250. -/
def westerlyVotes (flights : List Flight) : ℕ :=
  (candidates flights).countP (fun f => decide (|angleDiff (jsNum f.heading) 250| < 40))

/-- Number of candidate aircraft whose heading is within 40 degrees of the
easterly landing heading 70. -/
def easterlyVotes (flights : List Flight) : ℕ :=
  (candidates flights).countP (fun f => decide (|angleDiff (jsNum f.heading) 70| < 40))

/-- Detect the active runway configuration from aircraft headings
(`detectConfiguration` in the source). -/
def detectConfiguration (flights : List Flight) : Config :=
  if (candidates flights).length = 0 then Config.westerly
  else if easterlyVotes flights ≤ westerlyVotes flights then Config.westerly
  else Config.easterly

/-- Per-runway score of `predictRunway`: cross-track distance to the
extended centerline plus a heading alignment penalty. -/
def scoreFor (flight : Flight) (rwyName : RunwayId) : ℝ :=
  let rwy := RUNWAYS rwyName
  let xtd := crossTrackDistance flight.latitude flight.longitude
    rwy.threshold.1 rwy.threshold.2 rwy.opposite.1 rwy.opposite.2
  let headingPenalty := |angleDiff (jsNum flight.heading) rwy.heading| / 180
  xtd + headingPenalty * 5

/-- The best-runway accumulation loop of `predictRunway`: `none` stands for
the initial `bestScore = Infinity`, and a new runway wins only on a strictly
smaller score. -/
def foldBest : Option (RunwayId × ℝ) → List (RunwayId × ℝ) → Option (RunwayId × ℝ)
  | best, [] => best
  | best, (r, s) :: rest =>
      foldBest
        (match best with
         | none => some (r, s)
         | some (r0, s0) => if s < s0 then some (r, s) else some (r0, s0))
        rest

/-- The confidence adjustment chain of `predictRunway`: base confidence
from the score separation, then the close-and-aligned boost, the distance
attenuation, and the descent boost, in source order. -/
def adjustedConfidence (flight : Flight) (headingDiff separation : ℝ) : ℝ :=
  let conf0 := min 1 (0.5 + separation * 0.5)
  let conf1 :=
    if jsLt flight.distanceToAirport 20 && decide (headingDiff < 10) then
      min 1 (conf0 + 0.2)
    else conf0
  let conf2 :=
    if jsGt flight.distanceToAirport 50 then conf1 * 0.6
    else if jsGt flight.distanceToAirport 30 then conf1 * 0.8
    else conf1
  if jsLt flight.verticalRate (-2) then min 1 (conf2 + 0.1) else conf2

/-- Predict the runway for a single flight (`predictRunway` in the source).
Returns the chosen runway (absent for non-arriving aircraft) and the
confidence value. -/
def predictRunway (flight : Flight) (config : Config) : Option RunwayId × ℝ :=
  if flight.isArriving = false then (none, 0)
  else
    let activeRunways := CONFIGS config
    let rwyHeading := (RUNWAYS activeRunways.headI).heading
    let headingDiff := |angleDiff (jsNum flight.heading) rwyHeading|
    let scored := activeRunways.map (fun r => (r, scoreFor flight r))
    match foldBest none scored with
    | none => (none, 0)
    | some (bestRunway, bestScore) =>
        let scoreValues := scored.map Prod.snd
        let otherScore := jsOrElse (scoreValues.find? (fun s => decide (s ≠ bestScore))) bestScore
        (some bestRunway, adjustedConfidence flight headingDiff (otherScore - bestScore))

/-- The per-flight classification pass of `runPredictions`: compute the
distance to the airport, then the departure and arrival flags. -/
def classifyFlight (f : Flight) : Flight :=
  let f1 := { f with distanceToAirport := some (haversine f.latitude f.longitude FRA.1 FRA.2) }
  { f1 with isDeparting := isDeparting f1, isArriving := isArriving f1 }

/-- The per-flight scoring pass of `runPredictions`: store the prediction
for the shared active configuration. -/
def assignPrediction (config : Config) (f : Flight) : Flight :=
  let p := predictRunway f config
  { f with predictedRunway := p.1, confidence := p.2 }

/-- Run prediction on a batch of flights (`runPredictions` in the source):
classify every flight, detect the shared configuration from the flights
that are arriving or at least not departing, then score every flight. -/
def runPredictions (flights : List Flight) : List Flight :=
  let classified := flights.map classifyFlight
  let activeConfig := detectConfiguration
    (classified.filter (fun f => f.isArriving || !f.isDeparting))
  classified.map (assignPrediction activeConfig)

/-- Offset in degrees of latitude whose meridian arc is exactly 10 km under
the engine's Earth radius. -/
def dTen : ℝ := 1800 / (6371 * Real.pi)

/-- A concrete aircraft 10 km due north of FRA, at 1000 m, heading 250,
descending at 3 m/s. -/
def fNorth : Flight :=
  ⟨"north0", none, FRA.1 + dTen, FRA.2, some 1000, none, some 250, some (-3),
    none, false, false, none, 0⟩

/-- A concrete aircraft 10 km due south of FRA, at 1000 m, heading 250,
descending at 3 m/s; it flies away from the field. -/
def fSouth : Flight :=
  ⟨"south0", none, FRA.1 - dTen, FRA.2, some 1000, none, some 250, some (-3),
    none, false, false, none, 0⟩

/-- A concrete aircraft with no altitude or heading telemetry. -/
def fPlain : Flight :=
  ⟨"plain0", none, 50, 8.5, none, none, none, none, none, false, false, none, 0⟩

/-- A concrete aircraft with known altitude and heading and a preset
distance field, used to instantiate the classifier theorems. -/
def fKnown : Flight :=
  ⟨"known0", none, 50, 8.5, some 1200, none, some 100, none, some 10,
    false, false, none, 0⟩

/-- Evaluation rule for `jsRem` on a nonnegative dividend with known
integer quotient. -/
theorem jsRem_nonneg_eval (x n : ℝ) (k : ℤ) (hn : 0 < n) (h0 : 0 ≤ x)
    (h1 : n * k ≤ x) (h2 : x < n * (k + 1)) : jsRem x n = x - n * k := by
  have hq1 : (k : ℝ) ≤ x / n := by
    rw [le_div_iff₀ hn]
    linarith [h1]
  have hq2 : x / n < (k : ℝ) + 1 := by
    rw [div_lt_iff₀ hn]
    linarith [h2]
  have hfl : ⌊x / n⌋ = k := by
    rw [Int.floor_eq_iff]
    exact ⟨hq1, hq2⟩
  simp only [jsRem, jsTrunc, if_pos (div_nonneg h0 hn.le), hfl]

/-- The JavaScript remainder by 360 always lies strictly between -360 and
360. -/
theorem jsRem_360_bounds (x : ℝ) : -360 < jsRem x 360 ∧ jsRem x 360 < 360 := by
  simp only [jsRem, jsTrunc]
  by_cases hx : 0 ≤ x / 360
  · rw [if_pos hx]
    have h1 : (⌊x / 360⌋ : ℝ) ≤ x / 360 := Int.floor_le _
    have h2 : x / 360 < ⌊x / 360⌋ + 1 := Int.lt_floor_add_one _
    constructor <;> nlinarith
  · rw [if_neg hx]
    have h1 : x / 360 ≤ (⌈x / 360⌉ : ℝ) := Int.le_ceil _
    have h2 : (⌈x / 360⌉ : ℝ) < x / 360 + 1 := Int.ceil_lt_add_one _
    constructor <;> nlinarith

/-- Closed-form evaluation of `angleDiff` when the shifted difference is
nonnegative with known integer quotient by 360. -/
theorem angleDiff_eval (a b : ℝ) (k : ℤ) (hk : 0 ≤ (k : ℝ))
    (h1 : 360 * k ≤ a - b + 180) (h2 : a - b + 180 < 360 * (k + 1)) :
    angleDiff a b = a - b - 360 * k := by
  have h0 : (0 : ℝ) ≤ a - b + 180 := by nlinarith
  simp only [angleDiff]
  rw [jsRem_nonneg_eval _ _ k (by norm_num) h0 h1 h2]
  have hno : ¬ (a - b + 180 - 360 * k - 180 < -180) := by linarith
  rw [if_neg hno]
  ring

/-- C8: for all angles a and b, `angleDiff a b` lies in the closed interval
[-180, 180], and in particular `angleDiff 350 10 = -20`. -/
theorem angleDiff_in_range :
    (∀ a b : ℝ, -180 ≤ angleDiff a b ∧ angleDiff a b ≤ 180) ∧
      angleDiff 350 10 = -20 := by
  constructor
  · intro a b
    obtain ⟨hlo, hhi⟩ := jsRem_360_bounds (a - b + 180)
    simp only [angleDiff]
    split_ifs with h
    · constructor <;> linarith
    · constructor <;> linarith
  · have h := angleDiff_eval 350 10 1 (by norm_num) (by norm_num) (by norm_num)
    rw [h]
    norm_num

/-- The optional-compare `jsGt` is true exactly on a present value above the
bound. -/
theorem jsGt_eq_true_iff (o : Option ℝ) (c : ℝ) :
    jsGt o c = true ↔ ∃ x, o = some x ∧ c < x := by
  cases o <;> simp [jsGt]

/-- The optional-compare `jsGt` is false exactly when any present value is
at most the bound. -/
theorem jsGt_eq_false_iff (o : Option ℝ) (c : ℝ) :
    jsGt o c = false ↔ ∀ x, o = some x → x ≤ c := by
  cases o <;> simp [jsGt]

/-- The optional-compare `jsLt` is true exactly on a present value below the
bound. -/
theorem jsLt_eq_true_iff (o : Option ℝ) (c : ℝ) :
    jsLt o c = true ↔ ∃ x, o = some x ∧ x < c := by
  cases o <;> simp [jsLt]

/-- Unfolding of `isArriving` into the conjunction of its guard
conditions. -/
theorem isArriving_eq_true_iff (f : Flight) :
    isArriving f = true ↔
      f.baroAltitude ≠ none ∧ f.heading ≠ none ∧
      jsGt f.distanceToAirport 80 = false ∧
      jsGt f.baroAltitude 4000 = false ∧
      isDeparting f = false ∧
      jsGt f.verticalRate 3 = false ∧
      ¬(50 < |angleDiff (jsNum f.heading) 249| ∧
        50 < |angleDiff (jsNum f.heading) 69|) ∧
      ¬(jsGt f.distanceToAirport 5 = true ∧
        70 < |angleDiff (jsNum f.heading)
          (bearing f.latitude f.longitude FRA.1 FRA.2)|) := by
  simp only [isArriving]
  split_ifs with h1 h2 h3 h4 h5 h6 h7 <;>
    simp_all [Bool.and_eq_true, decide_eq_true_eq, not_or] <;> tauto

/-- Unfolding of `isDeparting` into its null guard and the disjunction of
its four rules. -/
theorem isDeparting_eq_true_iff (f : Flight) :
    isDeparting f = true ↔
      ¬(f.distanceToAirport = none ∨ f.baroAltitude = none) ∧
      ((jsLt f.distanceToAirport 30 = true ∧ jsGt f.verticalRate 2 = true) ∨
       (jsLt f.distanceToAirport 15 = true ∧ jsLt f.baroAltitude 1500 = true ∧
        jsGt f.verticalRate 0.5 = true) ∨
       (jsLt f.distanceToAirport 25 = true ∧ jsLt f.baroAltitude 2000 = true ∧
        f.heading.isSome = true ∧
        (|angleDiff (jsNum f.heading) 180| < 25 ∨
         |angleDiff (jsNum f.heading) 360| < 25) ∧
        jsGt f.verticalRate 0 = true) ∨
       (jsLt f.distanceToAirport 40 = true ∧ jsLt f.baroAltitude 3000 = true ∧
        f.heading.isSome = true ∧ jsGt f.verticalRate 1 = true ∧
        |angleDiff (jsNum f.heading)
          (bearing FRA.1 FRA.2 f.latitude f.longitude)| < 40)) := by
  simp only [isDeparting]
  split_ifs with h1 h2 h3 h4 h5 <;>
    simp_all [Bool.and_eq_true, Bool.or_eq_true, decide_eq_true_eq, not_or]

/-- C3: `isArriving` returns false if altitude or heading is unknown, and
otherwise is true exactly when the distance (if known) is at most 80 km,
the altitude is at most 4000 m, the flight is not departing, any known
vertical rate is at most 3 m/s, the heading is within 50 degrees of 249 or
of 69, and whenever the known distance exceeds 5 km the heading is within
70 degrees of the bearing from the aircraft to the airport. -/
theorem isArriving_characterization (f : Flight) :
    ((f.baroAltitude = none ∨ f.heading = none) → isArriving f = false) ∧
    (∀ alt hdg, f.baroAltitude = some alt → f.heading = some hdg →
      (isArriving f = true ↔
        ((∀ d, f.distanceToAirport = some d → d ≤ 80) ∧
         alt ≤ 4000 ∧
         isDeparting f = false ∧
         (∀ v, f.verticalRate = some v → v ≤ 3) ∧
         (|angleDiff hdg 249| ≤ 50 ∨ |angleDiff hdg 69| ≤ 50) ∧
         (∀ d, f.distanceToAirport = some d → 5 < d →
           |angleDiff hdg (bearing f.latitude f.longitude FRA.1 FRA.2)| ≤ 70)))) := by
  constructor
  · intro h
    simp only [isArriving, if_pos h]
  · intro alt hdg ha hh
    rw [isArriving_eq_true_iff]
    simp only [ha, hh, jsNum, Option.getD_some, jsGt_eq_false_iff, jsGt_eq_true_iff,
      Option.some.injEq, forall_eq', ne_eq, reduceCtorEq, not_false_eq_true, true_and]
    constructor
    · rintro ⟨h80, h4000, hdep, h3, hheads, happ⟩
      refine ⟨h80, h4000, hdep, h3, ?_, ?_⟩
      · rcases le_or_lt |angleDiff hdg 249| 50 with h | h
        · exact Or.inl h
        · rcases le_or_lt |angleDiff hdg 69| 50 with h2 | h2
          · exact Or.inr h2
          · exact absurd ⟨h, h2⟩ hheads
      · intro d hd h5
        by_contra hc
        exact happ ⟨⟨d, hd, h5⟩, not_le.mp hc⟩
    · rintro ⟨h80, h4000, hdep, h3, hheads, happ⟩
      refine ⟨h80, h4000, hdep, h3, ?_, ?_⟩
      · rintro ⟨hw, he⟩
        rcases hheads with h | h
        · exact absurd hw (not_lt.mpr h)
        · exact absurd he (not_lt.mpr h)
      · rintro ⟨⟨d, hd, h5⟩, hgt⟩
        exact absurd hgt (not_lt.mpr (happ d hd h5))

/-- C4: `isDeparting` returns false when distance or altitude is unknown,
and otherwise is true exactly when one of the four departure rules matches;
a rule whose required optional field is absent fails. -/
theorem isDeparting_characterization (f : Flight) :
    ((f.distanceToAirport = none ∨ f.baroAltitude = none) → isDeparting f = false) ∧
    (∀ d alt, f.distanceToAirport = some d → f.baroAltitude = some alt →
      (isDeparting f = true ↔
        ((d < 30 ∧ (∃ v, f.verticalRate = some v ∧ 2 < v)) ∨
         (d < 15 ∧ alt < 1500 ∧ (∃ v, f.verticalRate = some v ∧ 0.5 < v)) ∨
         (d < 25 ∧ alt < 2000 ∧
          (∃ h, f.heading = some h ∧
            (|angleDiff h 180| < 25 ∨ |angleDiff h 360| < 25)) ∧
          (∃ v, f.verticalRate = some v ∧ 0 < v)) ∨
         (d < 40 ∧ alt < 3000 ∧
          (∃ h, f.heading = some h ∧
            |angleDiff h (bearing FRA.1 FRA.2 f.latitude f.longitude)| < 40) ∧
          (∃ v, f.verticalRate = some v ∧ 1 < v))))) := by
  constructor
  · intro h
    simp only [isDeparting, if_pos h]
  · intro d alt hd ha
    rcases hhead : f.heading with _ | h
    · rw [isDeparting_eq_true_iff]
      simp [hd, ha, hhead, jsLt_eq_true_iff, jsGt_eq_true_iff, jsNum]
    · rw [isDeparting_eq_true_iff]
      simp only [hd, ha, hhead, jsLt_eq_true_iff, jsGt_eq_true_iff, jsNum, Option.getD_some,
        Option.isSome_some, Option.some.injEq, ne_eq, reduceCtorEq, not_or, not_false_eq_true,
        true_and, and_true, exists_eq_left, exists_eq_left']
      exact or_congr Iff.rfl (or_congr Iff.rfl (or_congr Iff.rfl
        (and_congr Iff.rfl (and_congr Iff.rfl and_comm))))

/-- C5: `detectConfiguration` returns westerly whenever the westerly votes
are at least the easterly votes, and in particular on zero candidates. -/
theorem detectConfiguration_westerly_bias (flights : List Flight) :
    (easterlyVotes flights ≤ westerlyVotes flights →
      detectConfiguration flights = Config.westerly) ∧
    (candidates flights = [] → detectConfiguration flights = Config.westerly) := by
  constructor
  · intro h
    unfold detectConfiguration
    by_cases h1 : (candidates flights).length = 0
    · rw [if_pos h1]
    · rw [if_neg h1, if_pos h]
  · intro h
    unfold detectConfiguration
    rw [if_pos (by rw [h]; rfl)]

/-- Witness for C5 at the empty batch. -/
theorem detectConfiguration_westerly_bias_witness :
    easterlyVotes [] ≤ westerlyVotes [] ∧ candidates ([] : List Flight) = [] ∧
      detectConfiguration [] = Config.westerly := by
  refine ⟨by simp [easterlyVotes, westerlyVotes, candidates], by simp [candidates], ?_⟩
  exact (detectConfiguration_westerly_bias []).2 (by simp [candidates])

/-- The accumulation loop keeps a present best once one is set. -/
theorem foldBest_some_isSome (l : List (RunwayId × ℝ)) :
    ∀ r s, (foldBest (some (r, s)) l).isSome = true := by
  induction l with
  | nil => intro r s; simp [foldBest]
  | cons hd tl ih =>
    intro r s
    obtain ⟨r1, s1⟩ := hd
    simp only [foldBest]
    split_ifs with h <;> exact ih _ _

/-- On a nonempty scored list the accumulation loop returns a runway. -/
theorem foldBest_none_cons_isSome (r : RunwayId) (s : ℝ) (l : List (RunwayId × ℝ)) :
    (foldBest none ((r, s) :: l)).isSome = true := by
  simp only [foldBest]
  exact foldBest_some_isSome l r s

/-- The score kept by the accumulation loop is a lower bound of the
accumulator score and of every score in the list. -/
theorem foldBest_min (l : List (RunwayId × ℝ)) :
    ∀ r0 s0 r s, foldBest (some (r0, s0)) l = some (r, s) →
      s ≤ s0 ∧ ∀ p ∈ l, s ≤ p.2 := by
  induction l with
  | nil =>
    intro r0 s0 r s h
    simp only [foldBest, Option.some.injEq, Prod.mk.injEq] at h
    refine ⟨le_of_eq h.2.symm, by simp⟩
  | cons hd tl ih =>
    intro r0 s0 r s h
    obtain ⟨r1, s1⟩ := hd
    simp only [foldBest] at h
    by_cases hlt : s1 < s0
    · rw [if_pos hlt] at h
      obtain ⟨ha, hb⟩ := ih r1 s1 r s h
      refine ⟨ha.trans hlt.le, ?_⟩
      intro p hp
      rcases List.mem_cons.mp hp with rfl | hp'
      · exact ha
      · exact hb p hp'
    · rw [if_neg hlt] at h
      obtain ⟨ha, hb⟩ := ih r0 s0 r s h
      refine ⟨ha, ?_⟩
      intro p hp
      rcases List.mem_cons.mp hp with rfl | hp'
      · exact ha.trans (not_lt.mp hlt)
      · exact hb p hp'

/-- The separation between the fallback other score and the best score is
never negative. -/
theorem separation_nonneg (scored : List (RunwayId × ℝ)) (bestR : RunwayId) (bestS : ℝ)
    (h : foldBest none scored = some (bestR, bestS)) :
    0 ≤ jsOrElse ((scored.map Prod.snd).find? (fun s => decide (s ≠ bestS))) bestS - bestS := by
  have hmin : ∀ p ∈ scored, bestS ≤ p.2 := by
    cases scored with
    | nil => simp [foldBest] at h
    | cons hd tl =>
      obtain ⟨r1, s1⟩ := hd
      simp only [foldBest] at h
      have hres := foldBest_min tl r1 s1 bestR bestS h
      intro p hp
      rcases List.mem_cons.mp hp with rfl | hp'
      · exact hres.1
      · exact hres.2 p hp'
  rcases hf : (scored.map Prod.snd).find? (fun s => decide (s ≠ bestS)) with _ | sOther
  · simp [jsOrElse]
  · have hmem : sOther ∈ scored.map Prod.snd := List.mem_of_find?_eq_some hf
    obtain ⟨p, hp, hps⟩ := List.mem_map.mp hmem
    have hle : bestS ≤ sOther := hps ▸ hmin p hp
    simp only [jsOrElse]
    split_ifs with h0
    · simp
    · linarith

/-- Bounds for the close-and-aligned confidence boost. -/
theorem boost_step_bounds (f : Flight) (hd c0 : ℝ) (h : 0.5 ≤ c0 ∧ c0 ≤ 1) :
    0.5 ≤ (if jsLt f.distanceToAirport 20 && decide (hd < 10) then min 1 (c0 + 0.2) else c0) ∧
      (if jsLt f.distanceToAirport 20 && decide (hd < 10) then min 1 (c0 + 0.2) else c0) ≤ 1 := by
  split_ifs with hb
  · exact ⟨le_min (by norm_num) (by linarith [h.1]), min_le_left _ _⟩
  · exact h

/-- Bounds for the distance attenuation of the confidence. -/
theorem attenuation_step_bounds (f : Flight) (c1 : ℝ) (h : 0.5 ≤ c1 ∧ c1 ≤ 1) :
    0.3 ≤ (if jsGt f.distanceToAirport 50 then c1 * 0.6
      else if jsGt f.distanceToAirport 30 then c1 * 0.8 else c1) ∧
      (if jsGt f.distanceToAirport 50 then c1 * 0.6
        else if jsGt f.distanceToAirport 30 then c1 * 0.8 else c1) ≤ 1 := by
  obtain ⟨h1, h2⟩ := h
  split_ifs with hb hb2
  · constructor <;> nlinarith
  · constructor <;> nlinarith
  · constructor <;> linarith

/-- Bounds for the descent confidence boost. -/
theorem descent_step_bounds (f : Flight) (c2 : ℝ) (h : 0.3 ≤ c2 ∧ c2 ≤ 1) :
    0.3 ≤ (if jsLt f.verticalRate (-2) then min 1 (c2 + 0.1) else c2) ∧
      (if jsLt f.verticalRate (-2) then min 1 (c2 + 0.1) else c2) ≤ 1 := by
  obtain ⟨h1, h2⟩ := h
  split_ifs with hb
  · exact ⟨le_min (by norm_num) (by linarith), min_le_left _ _⟩
  · exact ⟨h1, h2⟩

/-- With nonnegative separation the adjusted confidence lies in
[0.3, 1]. -/
theorem adjustedConfidence_bounds (f : Flight) (hd sep : ℝ) (hsep : 0 ≤ sep) :
    0.3 ≤ adjustedConfidence f hd sep ∧ adjustedConfidence f hd sep ≤ 1 := by
  have h0 : 0.5 ≤ min 1 (0.5 + sep * 0.5) ∧ min 1 (0.5 + sep * 0.5) ≤ 1 :=
    ⟨le_min (by norm_num) (by linarith), min_le_left _ _⟩
  exact descent_step_bounds f _ (attenuation_step_bounds f _ (boost_step_bounds f hd _ h0))

/-- Case analysis of `predictRunway`: for a non-arriving flight it returns
no runway and confidence 0; for an arriving flight it returns a runway and
a confidence in [0.3, 1]. -/
theorem predictRunway_cases (f : Flight) (cfg : Config) :
    (f.isArriving = false ∧ predictRunway f cfg = (none, 0)) ∨
    (f.isArriving = true ∧ (∃ r, (predictRunway f cfg).1 = some r) ∧
      0.3 ≤ (predictRunway f cfg).2 ∧ (predictRunway f cfg).2 ≤ 1) := by
  cases hA : f.isArriving with
  | false => exact Or.inl ⟨rfl, by simp [predictRunway, hA]⟩
  | true =>
    refine Or.inr ⟨rfl, ?_⟩
    have hne : ¬ (f.isArriving = false) := by simp [hA]
    cases cfg with
    | westerly =>
      simp only [predictRunway, if_neg hne, CONFIGS, List.headI, List.map_cons, List.map_nil]
      rcases hfb : foldBest none [(RunwayId.r25R, scoreFor f RunwayId.r25R),
          (RunwayId.r25C, scoreFor f RunwayId.r25C),
          (RunwayId.r25L, scoreFor f RunwayId.r25L)] with _ | ⟨bestR, bestS⟩
      · exact absurd (foldBest_none_cons_isSome _ _ _) (by rw [hfb]; simp)
      · have hsep := separation_nonneg _ bestR bestS hfb
        have hb := adjustedConfidence_bounds f
          (|angleDiff (jsNum f.heading) (RUNWAYS RunwayId.r25R).heading|) _ hsep
        exact ⟨⟨bestR, rfl⟩, hb.1, hb.2⟩
    | easterly =>
      simp only [predictRunway, if_neg hne, CONFIGS, List.headI, List.map_cons, List.map_nil]
      rcases hfb : foldBest none [(RunwayId.r07L, scoreFor f RunwayId.r07L),
          (RunwayId.r07C, scoreFor f RunwayId.r07C),
          (RunwayId.r07R, scoreFor f RunwayId.r07R)] with _ | ⟨bestR, bestS⟩
      · exact absurd (foldBest_none_cons_isSome _ _ _) (by rw [hfb]; simp)
      · have hsep := separation_nonneg _ bestR bestS hfb
        have hb := adjustedConfidence_bounds f
          (|angleDiff (jsNum f.heading) (RUNWAYS RunwayId.r07L).heading|) _ hsep
        exact ⟨⟨bestR, rfl⟩, hb.1, hb.2⟩

/-- All facts about one scored flight needed by the batch-level claims. -/
theorem assignPrediction_spec (cfg : Config) (g : Flight) :
    ((assignPrediction cfg g).predictedRunway = none ↔
      (assignPrediction cfg g).isArriving = false) ∧
    ((assignPrediction cfg g).isArriving = false → (assignPrediction cfg g).confidence = 0) ∧
    (0 ≤ (assignPrediction cfg g).confidence ∧ (assignPrediction cfg g).confidence ≤ 1) ∧
    ((assignPrediction cfg g).isArriving = true → 0.3 ≤ (assignPrediction cfg g).confidence) ∧
    ((assignPrediction cfg g).confidence = 0 ∨ 0.3 ≤ (assignPrediction cfg g).confidence) := by
  rcases predictRunway_cases g cfg with ⟨hA, hP⟩ | ⟨hA, ⟨r, hr⟩, hc1, hc2⟩
  · simp [assignPrediction, hA, hP]
  · simp only [assignPrediction, hA, hr]
    refine ⟨by simp [hr], by simp, ⟨by linarith, hc2⟩, fun _ => hc1, Or.inr hc1⟩

/-- C1: in every processed batch, the predicted runway is absent exactly
when the flight is not classified as arriving, in which case the confidence
is 0; arriving flights always receive a runway. -/
theorem runPredictions_runway_presence (batch : List Flight) :
    ∀ f ∈ runPredictions batch,
      (f.predictedRunway = none ↔ f.isArriving = false) ∧
      (f.isArriving = false → f.confidence = 0) := by
  intro f hf
  simp only [runPredictions, List.mem_map] at hf
  obtain ⟨g, hg, rfl⟩ := hf
  obtain ⟨h1, h2, h3, h4, h5⟩ := assignPrediction_spec _ g
  exact ⟨h1, h2⟩

/-- Witness for C1 on a singleton batch. -/
theorem runPredictions_runway_presence_witness :
    ((runPredictions [fPlain]).headI.predictedRunway = none ↔
      (runPredictions [fPlain]).headI.isArriving = false) ∧
    ((runPredictions [fPlain]).headI.isArriving = false →
      (runPredictions [fPlain]).headI.confidence = 0) :=
  runPredictions_runway_presence [fPlain] _ (List.mem_cons_self _ _)

/-- C2: in every processed batch, the confidence of every flight lies in
the closed interval [0, 1]. -/
theorem runPredictions_confidence_in_unit (batch : List Flight) :
    ∀ f ∈ runPredictions batch, 0 ≤ f.confidence ∧ f.confidence ≤ 1 := by
  intro f hf
  simp only [runPredictions, List.mem_map] at hf
  obtain ⟨g, hg, rfl⟩ := hf
  exact (assignPrediction_spec _ g).2.2.1

/-- Witness for C2 on a singleton batch. -/
theorem runPredictions_confidence_in_unit_witness :
    0 ≤ (runPredictions [fKnown]).headI.confidence ∧
      (runPredictions [fKnown]).headI.confidence ≤ 1 :=
  runPredictions_confidence_in_unit [fKnown] _ (List.mem_cons_self _ _)

/-- C10: in every processed batch, an arriving flight has confidence at
least 0.3, and no flight has a confidence strictly between 0 and 0.3. -/
theorem runPredictions_confidence_floor (batch : List Flight) :
    ∀ f ∈ runPredictions batch,
      (f.isArriving = true → 0.3 ≤ f.confidence) ∧
      (f.confidence = 0 ∨ 0.3 ≤ f.confidence) := by
  intro f hf
  simp only [runPredictions, List.mem_map] at hf
  obtain ⟨g, hg, rfl⟩ := hf
  exact ⟨(assignPrediction_spec _ g).2.2.2.1, (assignPrediction_spec _ g).2.2.2.2⟩

/-- The processing passes commute with list filtering when the predicate
ignores the fields a pass writes. -/
theorem filter_map_comm (l : List Flight) (h : Flight → Flight) (p : Flight → Bool)
    (hp : ∀ x, p (h x) = p x) :
    (l.map h).filter p = (l.filter p).map h := by
  induction l with
  | nil => rfl
  | cons a t ih =>
    simp only [List.map_cons, List.filter_cons, hp a]
    cases p a <;> simp [ih]

/-- Re-running the classification pass after the scoring pass changes
nothing: all classified fields are recomputed from unchanged raw fields. -/
theorem classifyFlight_stable (c : Config) (f : Flight) :
    classifyFlight (assignPrediction c (classifyFlight f)) =
      assignPrediction c (classifyFlight f) := rfl

/-- Re-running the scoring pass with the same configuration changes
nothing: the prediction reads no field the pass writes. -/
theorem assignPrediction_stable (c : Config) (f : Flight) :
    assignPrediction c (assignPrediction c f) = assignPrediction c f := rfl

/-- Configuration detection ignores the fields written by the scoring
pass. -/
theorem detectConfiguration_map_assign (c : Config) (m : List Flight) :
    detectConfiguration (List.map (assignPrediction c) m) = detectConfiguration m := by
  have hcand : candidates (List.map (assignPrediction c) m)
      = List.map (assignPrediction c) (candidates m) :=
    filter_map_comm m (assignPrediction c) candFilter (fun x => rfl)
  unfold detectConfiguration westerlyVotes easterlyVotes
  rw [hcand, List.length_map, List.countP_map, List.countP_map]
  rfl

/-- Unfolding equation of `runPredictions`. -/
theorem runPredictions_eq (flights : List Flight) :
    runPredictions flights = (flights.map classifyFlight).map
      (assignPrediction (detectConfiguration ((flights.map classifyFlight).filter
        (fun f => f.isArriving || !f.isDeparting)))) := rfl

/-- C7: `runPredictions` is idempotent; every derived field is recomputed
from the raw fields, so a second run reproduces the first run's output. -/
theorem runPredictions_idempotent (flights : List Flight) :
    runPredictions (runPredictions flights) = runPredictions flights := by
  conv_lhs => rw [runPredictions_eq]
  rw [runPredictions_eq flights]
  have hLL : List.map classifyFlight
      (List.map (assignPrediction (detectConfiguration ((flights.map classifyFlight).filter
        (fun f => f.isArriving || !f.isDeparting)))) (flights.map classifyFlight))
      = List.map (assignPrediction (detectConfiguration ((flights.map classifyFlight).filter
        (fun f => f.isArriving || !f.isDeparting)))) (flights.map classifyFlight) := by
    rw [List.map_map, List.map_map, List.map_map]
    apply List.map_congr_left
    intro a _
    exact classifyFlight_stable _ a
  rw [hLL]
  rw [filter_map_comm (flights.map classifyFlight)
      (assignPrediction (detectConfiguration ((flights.map classifyFlight).filter
        (fun f => f.isArriving || !f.isDeparting))))
      (fun f => f.isArriving || !f.isDeparting) (fun x => rfl),
    detectConfiguration_map_assign]
  rw [List.map_map]
  apply List.map_congr_left
  intro a _
  exact assignPrediction_stable _ a

/-- The latitude offset `dTen` corresponds to the angle 10/6371 rad. -/
theorem toRad_dTen : toRad dTen = 10 / 6371 := by
  unfold toRad dTen
  field_simp
  ring

/-- Remainder evaluation: `jsRem 0 360 = 0`. -/
theorem jsRem_zero : jsRem 0 360 = 0 := by
  rw [jsRem_nonneg_eval 0 360 0 (by norm_num) le_rfl (by norm_num) (by norm_num)]
  norm_num

/-- Remainder evaluation: `jsRem 360 360 = 0`. -/
theorem jsRem_360 : jsRem 360 360 = 0 := by
  rw [jsRem_nonneg_eval 360 360 1 (by norm_num) (by norm_num) (by norm_num) (by norm_num)]
  norm_num

/-- Remainder evaluation: `jsRem 180 360 = 180`. -/
theorem jsRem_180 : jsRem 180 360 = 180 := by
  rw [jsRem_nonneg_eval 180 360 0 (by norm_num) (by norm_num) (by norm_num) (by norm_num)]
  norm_num

/-- Remainder evaluation: `jsRem 540 360 = 180`. -/
theorem jsRem_540 : jsRem 540 360 = 180 := by
  rw [jsRem_nonneg_eval 540 360 1 (by norm_num) (by norm_num) (by norm_num) (by norm_num)]
  norm_num

/-- Haversine distance along a meridian: for two points on the same
longitude whose latitude difference corresponds to the angle `2 * t`, the
distance is `6371 * 2 * t`. -/
theorem haversine_meridian (lat1 lat2 lng t : ℝ) (h0 : 0 ≤ t) (h1 : t < Real.pi / 2)
    (h : toRad (lat2 - lat1) = 2 * t ∨ toRad (lat2 - lat1) = -(2 * t)) :
    haversine lat1 lng lat2 lng = 6371 * 2 * t := by
  have hcos : 0 < Real.cos t := Real.cos_pos_of_mem_Ioo ⟨by linarith [Real.pi_pos], h1⟩
  have hsin : 0 ≤ Real.sin t := Real.sin_nonneg_of_nonneg_of_le_pi h0 (by linarith [Real.pi_pos])
  simp only [haversine]
  have hlon : toRad (lng - lng) = 0 := by simp [toRad]
  rw [hlon]
  have hsq : Real.sin (toRad (lat2 - lat1) / 2) ^ 2 = Real.sin t ^ 2 := by
    rcases h with h | h
    · rw [h, show (2 * t) / 2 = t from by ring]
    · rw [h, show (-(2 * t)) / 2 = -t from by ring, Real.sin_neg, neg_sq]
  rw [hsq, show (0 : ℝ) / 2 = 0 from by norm_num, Real.sin_zero,
    show (0 : ℝ) ^ 2 = 0 from by norm_num, mul_zero, add_zero,
    Real.sqrt_sq hsin, ← Real.cos_sq', Real.sqrt_sq hcos.le]
  have hat : atan2 (Real.sin t) (Real.cos t) = t := by
    simp only [atan2, if_pos hcos]
    rw [← Real.tan_eq_sin_div_cos, Real.arctan_tan (by linarith [Real.pi_pos]) h1]
  rw [hat]

/-- The point 10 km due north of FRA is at haversine distance 10 from
FRA. -/
theorem haversine_north_ten : haversine (FRA.1 + dTen) FRA.2 FRA.1 FRA.2 = 10 := by
  have hpi := Real.pi_gt_three
  have h := haversine_meridian (FRA.1 + dTen) FRA.1 FRA.2 (5 / 6371)
    (by norm_num) (by linarith)
    (Or.inr (by
      rw [show FRA.1 - (FRA.1 + dTen) = -dTen from by ring,
        show toRad (-dTen) = -(toRad dTen) from by simp only [toRad]; ring, toRad_dTen]
      norm_num))
  rw [h]
  norm_num

/-- The point 10 km due south of FRA is at haversine distance 10 from
FRA. -/
theorem haversine_south_ten : haversine (FRA.1 - dTen) FRA.2 FRA.1 FRA.2 = 10 := by
  have hpi := Real.pi_gt_three
  have h := haversine_meridian (FRA.1 - dTen) FRA.1 FRA.2 (5 / 6371)
    (by norm_num) (by linarith)
    (Or.inl (by
      rw [show FRA.1 - (FRA.1 - dTen) = dTen from by ring,
        toRad_dTen]
      norm_num))
  rw [h]
  norm_num

/-- Bearing along a meridian toward the geographic north: 0 degrees. -/
theorem bearing_same_lng_north_is_zero (lat1 lat2 lng : ℝ)
    (h : 0 < Real.sin (toRad lat2 - toRad lat1)) :
    bearing lat1 lng lat2 lng = 0 := by
  simp only [bearing]
  have hlon : toRad (lng - lng) = 0 := by simp [toRad]
  rw [hlon, Real.sin_zero, Real.cos_zero, zero_mul]
  rw [show Real.cos (toRad lat1) * Real.sin (toRad lat2) -
      Real.sin (toRad lat1) * Real.cos (toRad lat2) * 1 =
      Real.sin (toRad lat2 - toRad lat1) from by rw [Real.sin_sub]; ring]
  have hat : atan2 0 (Real.sin (toRad lat2 - toRad lat1)) = 0 := by
    simp only [atan2, if_pos h]
    simp
  rw [hat, show toDeg 0 = 0 from by simp [toDeg], jsRem_zero, zero_add, jsRem_360]

/-- Bearing along a meridian toward the geographic south: 180 degrees. -/
theorem bearing_same_lng_south_is_180 (lat1 lat2 lng : ℝ)
    (h : Real.sin (toRad lat2 - toRad lat1) < 0) :
    bearing lat1 lng lat2 lng = 180 := by
  simp only [bearing]
  have hlon : toRad (lng - lng) = 0 := by simp [toRad]
  rw [hlon, Real.sin_zero, Real.cos_zero, zero_mul]
  rw [show Real.cos (toRad lat1) * Real.sin (toRad lat2) -
      Real.sin (toRad lat1) * Real.cos (toRad lat2) * 1 =
      Real.sin (toRad lat2 - toRad lat1) from by rw [Real.sin_sub]; ring]
  have hat : atan2 0 (Real.sin (toRad lat2 - toRad lat1)) = Real.pi := by
    simp only [atan2]
    rw [if_neg (by push_neg; exact le_of_lt h), if_pos ⟨h, le_rfl⟩]
    simp
  rw [hat, show toDeg Real.pi = 180 from by
    unfold toDeg; field_simp, jsRem_180,
    show (180 : ℝ) + 360 = 540 from by norm_num, jsRem_540]

/-- Angle difference evaluation: `angleDiff 250 249 = 1`. -/
theorem angleDiff_250_249 : angleDiff 250 249 = 1 := by
  rw [angleDiff_eval 250 249 0 (by norm_num) (by norm_num) (by norm_num)]
  norm_num

/-- Angle difference evaluation: `angleDiff 250 180 = 70`. -/
theorem angleDiff_250_180 : angleDiff 250 180 = 70 := by
  rw [angleDiff_eval 250 180 0 (by norm_num) (by norm_num) (by norm_num)]
  norm_num

/-- Angle difference evaluation: `angleDiff 250 0 = -110`. -/
theorem angleDiff_250_0 : angleDiff 250 0 = -110 := by
  rw [angleDiff_eval 250 0 1 (by norm_num) (by norm_num) (by norm_num)]
  norm_num

/-- A flight with a known nonpositive vertical rate is never classified as
departing: all four departure rules require a positive rate. -/
theorem isDeparting_false_of_nonpos_rate (f : Flight) (v : ℝ)
    (hv : f.verticalRate = some v) (hv0 : v ≤ 0) : isDeparting f = false := by
  cases hres : isDeparting f with
  | false => rfl
  | true =>
    exfalso
    rw [isDeparting_eq_true_iff] at hres
    have hvgt : ∀ c : ℝ, 0 ≤ c → jsGt f.verticalRate c = true → False := by
      intro c hc0 hc
      rw [hv] at hc
      simp only [jsGt, decide_eq_true_eq] at hc
      linarith
    obtain ⟨-, h1 | h2 | h3 | h4⟩ := hres
    · exact hvgt 2 (by norm_num) h1.2
    · exact hvgt 0.5 (by norm_num) h2.2.2
    · exact hvgt 0 le_rfl h3.2.2.2.2
    · exact hvgt 1 (by norm_num) h4.2.2.2.1

/-- A flight on the approach profile of the spec example (distance 10 km,
altitude 1000 m, heading 250, vertical rate -3) is classified as arriving
provided the heading is within 70 degrees of the bearing to the airport. -/
theorem isArriving_true_profile (f : Flight) (hd : f.distanceToAirport = some 10)
    (ha : f.baroAltitude = some 1000) (hh : f.heading = some 250)
    (hv : f.verticalRate = some (-3))
    (hb : |angleDiff 250 (bearing f.latitude f.longitude FRA.1 FRA.2)| ≤ 70) :
    isArriving f = true := by
  rw [isArriving_eq_true_iff]
  refine ⟨by simp [ha], by simp [hh], ?_, ?_,
    isDeparting_false_of_nonpos_rate f (-3) hv (by norm_num), ?_, ?_, ?_⟩
  · rw [jsGt_eq_false_iff]
    intro x hx
    rw [hd] at hx
    simp only [Option.some.injEq] at hx
    rw [← hx]
    norm_num
  · rw [jsGt_eq_false_iff]
    intro x hx
    rw [ha] at hx
    simp only [Option.some.injEq] at hx
    rw [← hx]
    norm_num
  · rw [jsGt_eq_false_iff]
    intro x hx
    rw [hv] at hx
    simp only [Option.some.injEq] at hx
    rw [← hx]
    norm_num
  · simp only [hh, jsNum, Option.getD_some, angleDiff_250_249]
    intro hcon
    have h1 := hcon.1
    rw [show |(1 : ℝ)| = 1 from abs_one] at h1
    norm_num at h1
  · simp only [hh, jsNum, Option.getD_some]
    rintro ⟨-, hgt⟩
    exact absurd hgt (not_lt.mpr hb)

/-- A flight on the same profile whose heading is more than 70 degrees off
the bearing to the airport is not classified as arriving. -/
theorem isArriving_false_profile (f : Flight) (hd : f.distanceToAirport = some 10)
    (hh : f.heading = some 250)
    (hb : 70 < |angleDiff 250 (bearing f.latitude f.longitude FRA.1 FRA.2)|) :
    isArriving f = false := by
  cases hres : isArriving f with
  | false => rfl
  | true =>
    exfalso
    rw [isArriving_eq_true_iff] at hres
    obtain ⟨-, -, -, -, -, -, -, happ⟩ := hres
    apply happ
    refine ⟨?_, ?_⟩
    · rw [jsGt_eq_true_iff]
      exact ⟨10, hd, by norm_num⟩
    · simpa [hh, jsNum] using hb

/-- The bearing from the aircraft 10 km north of FRA to FRA is 180. -/
theorem bearing_fNorth_eq : bearing fNorth.latitude fNorth.longitude FRA.1 FRA.2 = 180 := by
  refine bearing_same_lng_south_is_180 (FRA.1 + dTen) FRA.1 FRA.2 ?_
  have he : toRad FRA.1 - toRad (FRA.1 + dTen) = -(10 / 6371) := by
    rw [show toRad FRA.1 - toRad (FRA.1 + dTen) = -(toRad dTen) from by
      simp only [toRad]; ring, toRad_dTen]
  rw [he]
  apply Real.sin_neg_of_neg_of_neg_pi_lt
  · norm_num
  · have := Real.pi_gt_three
    linarith

/-- The bearing from the aircraft 10 km south of FRA to FRA is 0. -/
theorem bearing_fSouth_eq : bearing fSouth.latitude fSouth.longitude FRA.1 FRA.2 = 0 := by
  refine bearing_same_lng_north_is_zero (FRA.1 - dTen) FRA.1 FRA.2 ?_
  have he : toRad FRA.1 - toRad (FRA.1 - dTen) = 10 / 6371 := by
    rw [show toRad FRA.1 - toRad (FRA.1 - dTen) = toRad dTen from by
      simp only [toRad]; ring, toRad_dTen]
  rw [he]
  apply Real.sin_pos_of_pos_of_lt_pi
  · norm_num
  · have := Real.pi_gt_three
    linarith

/-- The northern aircraft's heading 250 is within 70 degrees of its bearing
to the airport. -/
theorem approach_diff_fNorth :
    |angleDiff 250 (bearing fNorth.latitude fNorth.longitude FRA.1 FRA.2)| ≤ 70 := by
  rw [bearing_fNorth_eq, angleDiff_250_180, abs_of_nonneg (by norm_num : (0:ℝ) ≤ 70)]

/-- The southern aircraft's heading 250 is more than 70 degrees off its
bearing to the airport. -/
theorem approach_diff_fSouth :
    70 < |angleDiff 250 (bearing fSouth.latitude fSouth.longitude FRA.1 FRA.2)| := by
  rw [bearing_fSouth_eq, angleDiff_250_0, abs_of_neg (by norm_num : (-110:ℝ) < 0)]
  norm_num

/-- Full evaluation of the classification pass on the northern aircraft:
computed distance 10 km, not departing, arriving. -/
theorem classifyFlight_fNorth : classifyFlight fNorth =
    { fNorth with distanceToAirport := some 10, isDeparting := false, isArriving := true } := by
  have hhav : haversine fNorth.latitude fNorth.longitude FRA.1 FRA.2 = 10 :=
    haversine_north_ten
  have hdep : isDeparting { fNorth with distanceToAirport := some 10 } = false :=
    isDeparting_false_of_nonpos_rate _ (-3) rfl (by norm_num)
  have harr : isArriving { fNorth with distanceToAirport := some 10 } = true :=
    isArriving_true_profile _ rfl rfl rfl rfl approach_diff_fNorth
  simp only [classifyFlight, hhav]
  rw [hdep, harr]

/-- Full evaluation of the classification pass on the southern aircraft:
computed distance 10 km, not departing, not arriving. -/
theorem classifyFlight_fSouth : classifyFlight fSouth =
    { fSouth with distanceToAirport := some 10, isDeparting := false, isArriving := false } := by
  have hhav : haversine fSouth.latitude fSouth.longitude FRA.1 FRA.2 = 10 :=
    haversine_south_ten
  have hdep : isDeparting { fSouth with distanceToAirport := some 10 } = false :=
    isDeparting_false_of_nonpos_rate _ (-3) rfl (by norm_num)
  have harr : isArriving { fSouth with distanceToAirport := some 10 } = false :=
    isArriving_false_profile _ rfl rfl approach_diff_fSouth
  simp only [classifyFlight, hhav]
  rw [hdep, harr]

/-- Counterexample to C6 as stated: the southern aircraft has computed
distance 10 km, altitude 1000 m, heading 250 and vertical rate -3, yet the
classifier does not mark it as arriving (its heading points away from the
airport, failing the approach-bearing check). -/
theorem ten_km_profile_counterexample :
    fSouth.baroAltitude = some 1000 ∧ fSouth.heading = some 250 ∧
    fSouth.verticalRate = some (-3) ∧
    (classifyFlight fSouth).distanceToAirport = some 10 ∧
    (classifyFlight fSouth).isArriving = false := by
  refine ⟨rfl, rfl, rfl, ?_, ?_⟩ <;> rw [classifyFlight_fSouth]

/-- C6 (amended): every flight with computed distance 10 km, altitude
1000 m, heading 250 and vertical rate -3 is classified as not departing;
and it is classified as arriving provided additionally its heading 250 is
within 70 degrees of the bearing from the aircraft to the airport (the
approach check the code applies beyond 5 km). -/
theorem ten_km_profile_amended (f : Flight)
    (hd : (classifyFlight f).distanceToAirport = some 10)
    (ha : f.baroAltitude = some 1000) (hh : f.heading = some 250)
    (hv : f.verticalRate = some (-3)) :
    (classifyFlight f).isDeparting = false ∧
    (|angleDiff 250 (bearing f.latitude f.longitude FRA.1 FRA.2)| ≤ 70 →
      (classifyFlight f).isArriving = true) := by
  have hhav : haversine f.latitude f.longitude FRA.1 FRA.2 = 10 := Option.some.inj hd
  constructor
  · show isDeparting
      { f with distanceToAirport := some (haversine f.latitude f.longitude FRA.1 FRA.2) } = false
    exact isDeparting_false_of_nonpos_rate _ (-3) hv (by norm_num)
  · intro hb
    show isArriving
      { f with distanceToAirport := some (haversine f.latitude f.longitude FRA.1 FRA.2) } = true
    rw [hhav]
    exact isArriving_true_profile _ rfl ha hh hv hb

/-- Witness for the amended C6 at the northern aircraft, which satisfies
the bearing condition. -/
theorem ten_km_profile_amended_witness :
    (classifyFlight fNorth).isDeparting = false ∧
      (classifyFlight fNorth).isArriving = true := by
  have h := ten_km_profile_amended fNorth (by rw [classifyFlight_fNorth]) rfl rfl rfl
  exact ⟨h.1, h.2 approach_diff_fNorth⟩

/-- Witness for C10 on a singleton batch containing an arriving flight. -/
theorem runPredictions_confidence_floor_witness :
    (0.3 : ℝ) ≤ (runPredictions [fNorth]).headI.confidence := by
  refine (runPredictions_confidence_floor [fNorth] _ (List.mem_cons_self _ _)).1 ?_
  show (classifyFlight fNorth).isArriving = true
  rw [classifyFlight_fNorth]

/-- Witness for C3: the unknown-field case at a flight with no telemetry,
and the characterization instantiated at a fully known flight. -/
theorem isArriving_characterization_witness :
    isArriving fPlain = false ∧
    (isArriving fKnown = true ↔
      ((∀ d, fKnown.distanceToAirport = some d → d ≤ 80) ∧
       (1200 : ℝ) ≤ 4000 ∧
       isDeparting fKnown = false ∧
       (∀ v, fKnown.verticalRate = some v → v ≤ 3) ∧
       (|angleDiff 100 249| ≤ 50 ∨ |angleDiff 100 69| ≤ 50) ∧
       (∀ d, fKnown.distanceToAirport = some d → 5 < d →
         |angleDiff 100 (bearing fKnown.latitude fKnown.longitude FRA.1 FRA.2)| ≤ 70))) :=
  ⟨(isArriving_characterization fPlain).1 (Or.inl rfl),
   (isArriving_characterization fKnown).2 1200 100 rfl rfl⟩

/-- Witness for C4: the unknown-field case at a flight with no telemetry,
and the rule disjunction instantiated at a fully known flight. -/
theorem isDeparting_characterization_witness :
    isDeparting fPlain = false ∧
    (isDeparting fKnown = true ↔
      (((10:ℝ) < 30 ∧ (∃ v, fKnown.verticalRate = some v ∧ 2 < v)) ∨
       ((10:ℝ) < 15 ∧ (1200:ℝ) < 1500 ∧ (∃ v, fKnown.verticalRate = some v ∧ 0.5 < v)) ∨
       ((10:ℝ) < 25 ∧ (1200:ℝ) < 2000 ∧
        (∃ h, fKnown.heading = some h ∧
          (|angleDiff h 180| < 25 ∨ |angleDiff h 360| < 25)) ∧
        (∃ v, fKnown.verticalRate = some v ∧ 0 < v)) ∨
       ((10:ℝ) < 40 ∧ (1200:ℝ) < 3000 ∧
        (∃ h, fKnown.heading = some h ∧
          |angleDiff h (bearing FRA.1 FRA.2 fKnown.latitude fKnown.longitude)| < 40) ∧
        (∃ v, fKnown.verticalRate = some v ∧ 1 < v)))) :=
  ⟨(isDeparting_characterization fPlain).1 (Or.inl rfl),
   (isDeparting_characterization fKnown).2 10 1200 rfl rfl⟩

/-- C9: the haversine distance is symmetric in its two points, and is zero
on identical points. -/
theorem haversine_symm_and_diag_zero :
    (∀ lat1 lon1 lat2 lon2 : ℝ,
      haversine lat1 lon1 lat2 lon2 = haversine lat2 lon2 lat1 lon1) ∧
      (∀ lat lon : ℝ, haversine lat lon lat lon = 0) := by
  constructor
  · intro lat1 lon1 lat2 lon2
    simp only [haversine]
    have h1 : toRad (lat1 - lat2) = -(toRad (lat2 - lat1)) := by
      simp only [toRad]; ring
    have h2 : toRad (lon1 - lon2) = -(toRad (lon2 - lon1)) := by
      simp only [toRad]; ring
    rw [h1, h2, neg_div, neg_div, Real.sin_neg, Real.sin_neg, neg_sq, neg_sq,
      mul_comm (Real.cos (toRad lat2)) (Real.cos (toRad lat1))]
  · intro lat lon
    norm_num [haversine, toRad, atan2, Real.arctan_zero]

end
